import Mathlib

/-!
Verification development for the PythonStandardChecker repository.

The repository is a static style and documentation checker for Python files.
Its core (src/StandardCheck.py) cross-validates structured docstrings against
function signatures; src/replacement.py is an alternative flat implementation;
src/fileHandler.py is a small singleton JSON-file cache.

This file gives a shallow embedding of the checking core, translated from the
Python source.  Python strings are modelled as Lean strings over their
character lists (ASCII behaviour of the Python string methods), Python
exceptions as an explicit error monad, and the ast nodes consumed by the
checker as inductive data carrying exactly the fields the source reads.
-/

/-! ## Python string method primitives

Every primitive below is written by structural (or fuel-bounded structural)
recursion over character lists so that all definitions evaluate inside the
kernel.  Each models the corresponding CPython `str` method, restricted to
ASCII (the repository only ever feeds ASCII docstrings and identifiers to
them).
-/

namespace Py

/-- Characters stripped by the Python `str.strip()` method. -/
def isSpaceChar (c : Char) : Bool :=
  c = ' ' || c = '\t' || c = '\n' || c = '\r' || c = '\x0b' || c = '\x0c'

/-- Model of Python `str.strip()`: drop leading and trailing whitespace. -/
def pyStrip (s : String) : String :=
  String.mk (((s.data.dropWhile isSpaceChar).reverse.dropWhile isSpaceChar).reverse)

/-- Substring test on character lists, used to model the Python `in` operator. -/
def chIn (needle : List Char) : List Char → Bool
  | [] => needle.isEmpty
  | c :: rest => needle.isPrefixOf (c :: rest) || chIn needle rest

/-- Model of the Python `needle in haystack` substring operator. -/
def pyIn (needle haystack : String) : Bool :=
  chIn needle.data haystack.data

/-- Fuelled worker for `pySplit`; fuel is an upper bound on the number of steps
and is always sufficient at the call site, where it is the string length plus
one (every step consumes at least one character of the input). -/
def pySplitAux (sep : List Char) : Nat → List Char → List Char → List (List Char)
  | 0, s, acc => [acc.reverse ++ s]
  | fuel + 1, [], acc => [acc.reverse]
  | fuel + 1, c :: rest, acc =>
      if sep.isPrefixOf (c :: rest) then
        acc.reverse :: pySplitAux sep fuel ((c :: rest).drop sep.length) []
      else
        pySplitAux sep fuel rest (c :: acc)

/-- Model of Python `s.split(sep)` for a non-empty separator: non-overlapping
left-to-right splitting, keeping empty pieces.  (Python raises on an empty
separator; the guard below is never exercised by the checker.) -/
def pySplit (sep s : String) : List String :=
  if sep.data.isEmpty then [s]
  else (pySplitAux sep.data (s.data.length + 1) s.data []).map String.mk

/-- Fuelled worker for `pyReplace`. -/
def pyReplaceAux (pat rep : List Char) : Nat → List Char → List Char
  | 0, s => s
  | fuel + 1, [] => []
  | fuel + 1, c :: rest =>
      if pat.isPrefixOf (c :: rest) then
        rep ++ pyReplaceAux pat rep fuel ((c :: rest).drop pat.length)
      else
        c :: pyReplaceAux pat rep fuel rest

/-- Model of Python `s.replace(pat, rep)` for a non-empty pattern. -/
def pyReplace (pat rep s : String) : String :=
  String.mk (pyReplaceAux pat.data rep.data (s.data.length + 1) s.data)

/-- Model of Python `s.endswith(suffix)`. -/
def pyEndsWith (suffix s : String) : Bool :=
  suffix.data.reverse.isPrefixOf s.data.reverse

/-- Model of Python `s.startswith(p)`. -/
def pyStartsWith (p s : String) : Bool :=
  p.data.isPrefixOf s.data

/-- Model of Python `c in s` for a single character. -/
def pyContainsChar (c : Char) (s : String) : Bool :=
  s.data.contains c

/-- Model of Python `sep.join(parts)`. -/
def pyJoin (sep : String) : List String → String
  | [] => ""
  | [x] => x
  | x :: rest => x ++ sep ++ pyJoin sep rest

/-- Model of `str.isupper()`: at least one cased character and no lowercase
cased character (ASCII: cased characters are the letters). -/
def pyIsUpperStr (s : String) : Bool :=
  s.data.any Char.isAlpha && s.data.all (fun c => !c.isAlpha || c.isUpper)

/-- Model of `str.islower()`: at least one cased character and no uppercase
cased character. -/
def pyIsLowerStr (s : String) : Bool :=
  s.data.any Char.isAlpha && s.data.all (fun c => !c.isAlpha || c.isLower)

/-- Model of `str.isalnum()` over ASCII. -/
def pyIsAlnumStr (s : String) : Bool :=
  !s.data.isEmpty && s.data.all Char.isAlphanum

/-- The apostrophe character, used when reproducing message texts. -/
def apos : String := String.mk [Char.ofNat 39]

end Py

open Py

/-- Python exceptions raised (explicitly or implicitly) by the embedded code. -/
inductive PyErr where
  | attributeError
  | typeError
  | indexError
  | nameError
  | ioError
deriving DecidableEq, Repr

/-- Computations that may raise a Python exception. -/
abbrev PyM := Except PyErr

namespace StandardCheck

/-- Python values appearing as `ast.Constant` payloads in the checked source
(default values and constant annotations). -/
inductive PyVal where
  | intV (n : Int)
  | strV (s : String)
  | boolV (b : Bool)
  | noneV
deriving DecidableEq, Repr

/-- Model of Python `str(v)` on the constant payloads. -/
def pyStr : PyVal → String
  | .intV n => toString n
  | .strV s => s
  | .boolV true => "True"
  | .boolV false => "False"
  | .noneV => "None"

/-- Model of the Python expression `-1 * v` as evaluated in `_verifySections`
for a `USub`-wrapped default: integers negate, booleans coerce to integers,
a string repeated a negative number of times is empty, and `None` raises
`TypeError`. -/
def pyMulNegOne : PyVal → PyM PyVal
  | .intV n => .ok (.intV (-n))
  | .boolV b => .ok (.intV (if b then -1 else 0))
  | .strV _ => .ok (.strV "")
  | .noneV => .error .typeError

/-- Shape of a default expression node (`node.args.defaults` element) as far as
`_verifySections` inspects it: either a constant, or a unary operation whose
operand is a constant (the `USub` flag records whether the operator is
`ast.USub`). -/
inductive DefNode where
  | constN (value : PyVal)
  | unaryOpN (isUSub : Bool) (operand : PyVal)
deriving DecidableEq, Repr

/-- A default expression together with the source-position fields read by
`_getArgDefault` (`col_offset` and `end_lineno`). -/
structure DefaultExpr where
  col_offset : Int
  end_lineno : Int
  node : DefNode
deriving DecidableEq, Repr

/-- Evaluation of `defaultValue` in `_verifySections` (lines 446 to 452 of
StandardCheck.py): a `USub` unary operation negates its operand value, any
other unary operation yields the operand value, a constant yields its value. -/
def computeDefaultValue : DefNode → PyM PyVal
  | .unaryOpN true v => pyMulNegOne v
  | .unaryOpN false v => .ok v
  | .constN v => .ok v

/-- The attribute access `correspondingDefault.value` from line 459 of
StandardCheck.py: valid on an `ast.Constant`, but an `ast.UnaryOp` has no
`value` attribute, so Python raises `AttributeError` there. -/
def defaultNodeValue : DefNode → PyM PyVal
  | .constN v => .ok v
  | .unaryOpN _ _ => .error .attributeError

/-- Annotation expressions, one constructor per ast shape distinguished by
`_getDefinedType`; `otherA` stands for every other expression shape (for
example an `ast.Call` or `ast.Lambda`), for which the if/elif chain falls
through and the Python function implicitly returns `None`. -/
inductive Ann where
  | binOp (left right : Ann)
  | tupleA (elts : List Ann)
  | subscript (value : Ann) (slice : Ann)
  | constA (value : PyVal)
  | attrA (value : Ann) (attr : String)
  | nameA (id : String)
  | listA (elts : List Ann)
  | otherA
deriving Repr

/-- The walk of `_getTypeFromAttributeOrName`: collect attribute names from
the outermost access inward, ending at the root `ast.Name`.  If the walk hits
a node that is neither an `ast.Attribute` nor an `ast.Name`, the Python loop
evaluates `.attr` on it and raises `AttributeError`. -/
def attrChainList : Ann → PyM (List String)
  | .nameA id => .ok [id]
  | .attrA value a => do
      let rest ← attrChainList value
      .ok (a :: rest)
  | _ => .error .attributeError

/-- Model of `_getTypeFromAttributeOrName`: the collected names re-emitted
root-first, dot-joined. -/
def getTypeFromAttributeOrName (ann : Ann) : PyM String := do
  let l ← attrChainList ann
  .ok (pyJoin "." l.reverse)

/-- Model of Python `str(x)` where `x` is a string or `None` (used on the
recursive results inside the `ast.BinOp` branch of `_getDefinedType`). -/
def pyStrOfOpt : Option String → String
  | none => "None"
  | some s => s

/-- Model of Python `sep.join(parts)` when an element may be `None`: `join`
raises `TypeError` at the first non-string element. -/
def joinStrs : List (Option String) → PyM (List String)
  | [] => .ok []
  | some s :: rest => do
      let xs ← joinStrs rest
      .ok (s :: xs)
  | none :: _ => .error .typeError

mutual

/-- Model of `_getDefinedType` on an annotation expression (StandardCheck.py
lines 483 to 514).  Faithful points: the `ast.BinOp` branch applies `str` to
both recursive results, so an undeterminable side prints as the text `None`;
the `ast.Subscript` branch first evaluates `annotation.value.id`, which raises
`AttributeError` unless the outer expression is an `ast.Name`, and then
concatenates the recursive slice result, which raises `TypeError` when that
result is `None`; tuple and list branches `join` their elements, raising
`TypeError` on a `None` element; any unhandled shape returns `None`. -/
def getDefinedTypeA : Ann → PyM (Option String)
  | .binOp left right => do
      let leftDefinedType ← getDefinedTypeA left
      let rightDefinedType ← getDefinedTypeA right
      .ok (some (pyStrOfOpt leftDefinedType ++ "|" ++ pyStrOfOpt rightDefinedType))
  | .tupleA elts => do
      let innerTypes ← getDefinedTypeL elts
      let strs ← joinStrs innerTypes
      .ok (some (pyJoin ", " strs))
  | .subscript value slice => do
      let outside ← match value with
        | .nameA id => Except.ok id
        | _ => Except.error PyErr.attributeError
      let innerOpt ← getDefinedTypeA slice
      match innerOpt with
      | some inner => .ok (some (outside ++ "[" ++ inner ++ "]"))
      | none => .error .typeError
  | .constA v => .ok (some (pyStr v))
  | .attrA value a => do
      let s ← getTypeFromAttributeOrName (.attrA value a)
      .ok (some s)
  | .nameA id => do
      let s ← getTypeFromAttributeOrName (.nameA id)
      .ok (some s)
  | .listA elts => do
      let types ← getDefinedTypeL elts
      let strs ← joinStrs types
      .ok (some ("[" ++ pyJoin "," strs ++ "]"))
  | .otherA => .ok none

/-- Elementwise recursive calls of `_getDefinedType` over the children of a
tuple or list annotation, in source order. -/
def getDefinedTypeL : List Ann → PyM (List (Option String))
  | [] => .ok []
  | a :: rest => do
      let x ← getDefinedTypeA a
      let xs ← getDefinedTypeL rest
      .ok (x :: xs)

end

/-- Model of `self._getDefinedType(annotation)` including the case where the
argument is Python `None` (no annotation): every isinstance test fails and the
function returns `None`. -/
def getDefinedType : Option Ann → PyM (Option String)
  | none => .ok none
  | some a => getDefinedTypeA a

/-- One function parameter (`ast.arg`), with the fields the checker reads:
its name, its annotation expression if any, and its end source position. -/
structure Arg where
  arg : String
  annot : Option Ann
  end_col_offset : Int
  end_lineno : Int
deriving Repr

/-- A function definition as consumed by the docstring checker: name, line,
positional parameters (`node.args.args`), default expressions
(`node.args.defaults`), return annotation (`node.returns`) and the docstring
returned by `ast.get_docstring` (`none` models Python `None`). -/
structure FunctionDef where
  name : String
  lineno : Int
  args : List Arg
  defaults : List DefaultExpr
  returns : Option Ann
  docstring : Option String
deriving Repr

/-- Model of `_getArgDefault` (StandardCheck.py lines 461 to 481): with the
`-1` sentinel, return `None` immediately; otherwise return the first default
whose start column is exactly 1 or exactly 3 past the parameter end column and
whose end line equals the parameter end line. -/
def getArgDefault (node : FunctionDef) (endColOfArg endRowOfArg : Int) : Option DefaultExpr :=
  if endColOfArg = -1 then none
  else node.defaults.find? (fun dflt =>
    (dflt.col_offset - endColOfArg == 1 || dflt.col_offset - endColOfArg == 3)
      && endRowOfArg == dflt.end_lineno)

/-- The findings the docstring checker can append, one constructor per
`self.errors.append` site in the docstring-checking code, carrying the values
interpolated into that message.  (The uniform `filename:lineno: Function
name:` prefix added by `toString` is the same for every finding of one node
and is omitted.) -/
inductive Finding where
  /-- an argument in the docstring does not have a type definition -/
  | noTypeDef
  /-- docstring arg A does not appear in F arguments -/
  | docArgNotInArgs (argName funcName : String)
  /-- type for arg A could not be constructed -/
  | typeNotConstructed (argName : String)
  /-- type for arg A (T) in documentation does not match with A (U) definition -/
  | typeMismatch (argName argType definedType : String)
  /-- description sentence for arg A not provided in docstring -/
  | noDescriptionSentence (argName : String)
  /-- empty section provided in documentation for arg A -/
  | emptySection (argName : String)
  /-- capital letter in beginning of a section for documentation of arg A -/
  | capitalSection (argName : String)
  /-- section of documentation for arg A ends with a period -/
  | endsWithPeriod (argName : String)
  /-- section of documentation for arg A contains the disallowed colon character -/
  | containsColon (argName : String)
  /-- the default value (V) for arg A is not reflected in the docstring (line 454) -/
  | defaultNotReflectedParen (value argName : String)
  /-- contains default documentation for arg A which has no default -/
  | defaultNotExist (argName : String)
  /-- the default value V for arg A is not reflected in the docstring (line 459) -/
  | defaultNotReflected (value argName : String)
  /-- arguement A not documented -/
  | argNotDocumented (argName : String)
  /-- Function F docstring Args section is empty -/
  | argsSectionEmpty (funcName : String)
  /-- N is missing a docstring -/
  | missingDocstring (name : String)
  /-- N docstring description is missing -/
  | descriptionMissing (name : String)
  /-- N docstring description must begin with a capital letter -/
  | descriptionBeginCapital (name : String)
  /-- N docstring description must end with a period -/
  | descriptionEndPeriod (name : String)
  /-- arguments not documented in docstring -/
  | argsNotDocumented
  /-- return type not documented in docstring -/
  | returnNotDocumented
  /-- N docstring return section is missing -/
  | returnSectionMissing (name : String)
  /-- N docstring return section is missing a type definition -/
  | returnMissingTypeDef (name : String)
  /-- return type for N either is not defined or could not be constructed -/
  | returnTypeNotConstructed (name : String)
  /-- the documentation of the return type (T) does not match with function return type (U) -/
  | returnTypeMismatch (docType funcType : String)
deriving DecidableEq, Repr

/-- The body of the `for section in sectionSplit` loop of `_verifySections`
(StandardCheck.py lines 428 to 456) on one semicolon-delimited clause.
Returns the findings appended for this clause and whether the clause set
`foundDefault`.  Faithful points: the emptiness test precedes stripping, so a
whitespace-only clause strips to the empty string and `section[0]` raises
`IndexError`; the capital test compares `section[0].capitalize()` with
`section[0]`, which holds for every character that upper-cases to itself. -/
def checkSection (node : FunctionDef) (correspondingDefault : Option DefaultExpr)
    (argName : String) (sect : String) : PyM (List Finding × Bool) :=
  if sect = "" then .ok ([.emptySection argName], false)
  else
    let s := pyStrip sect
    match s.data with
    | [] => .error .indexError
    | c :: _ =>
      let e1 := if c.toUpper == c then [Finding.capitalSection argName] else []
      let e2 := if pyEndsWith "." s then [Finding.endsWithPeriod argName] else []
      let e3 := if pyContainsChar ':' s then [Finding.containsColon argName] else []
      if pyIn "defaults to" s then
        match correspondingDefault with
        | some dflt =>
            match computeDefaultValue dflt.node with
            | .ok defaultValue =>
                let e4 := if pyIn (pyStr defaultValue) s then []
                          else [Finding.defaultNotReflectedParen (pyStr defaultValue) argName]
                .ok (e1 ++ e2 ++ e3 ++ e4, true)
            | .error e => .error e
        | none => .ok (e1 ++ e2 ++ e3 ++ [Finding.defaultNotExist argName], true)
      else .ok (e1 ++ e2 ++ e3, false)

/-- The clause loop of `_verifySections`, threading `foundDefault`. -/
def verifySectionsLoop (node : FunctionDef) (correspondingDefault : Option DefaultExpr)
    (argName : String) : List String → Bool → PyM (List Finding × Bool)
  | [], foundDefault => .ok ([], foundDefault)
  | sect :: rest, foundDefault => do
      let (e, f) ← checkSection node correspondingDefault argName sect
      let (es, ff) ← verifySectionsLoop node correspondingDefault argName rest (foundDefault || f)
      .ok (e ++ es, ff)

/-- Model of `_verifySections` (StandardCheck.py lines 417 to 459): split the
description on semicolons, check every clause, and afterwards, if no clause
mentioned `defaults to` while a default exists, report it, reading
`correspondingDefault.value` (which raises `AttributeError` on a unary
operation node). -/
def verifySections (node : FunctionDef) (definition : String)
    (correspondingDefault : Option DefaultExpr) (argName : String) : PyM (List Finding) := do
  let sectionSplit := pySplit ";" definition
  let (errs, foundDefault) ← verifySectionsLoop node correspondingDefault argName sectionSplit false
  match correspondingDefault with
  | some dflt =>
      if !foundDefault then do
        let v ← defaultNodeValue dflt.node
        .ok (errs ++ [Finding.defaultNotReflected (pyStr v) argName])
      else .ok (errs ++ [])
  | none => .ok (errs ++ [])

/-- Model of `_docArgExists`. -/
def docArgExists (docArgName : String) (argList : List Arg) : Bool :=
  argList.any (fun a => a.arg == docArgName)

/-- The `for arg in functionArgs` loop of `_verifyArgLines` (StandardCheck.py
lines 390 to 406): locate the first parameter named `argName` (the others are
skipped with `continue`, and the loop breaks after processing it).  The end
column and end row are recorded before the undeterminable-type check, so they
are set whenever a matching parameter exists.  Returns the findings appended
by the loop, the recorded end column (`-1` when no parameter matched) and the
located default. -/
def matchArgAnnot (node : FunctionDef) (argName argType : String) :
    PyM (List Finding × Int × Option DefaultExpr) :=
  match node.args.find? (fun a => a.arg == argName) with
  | none => .ok ([], -1, none)
  | some arg => do
      let definedType ← getDefinedType arg.annot
      let functionArgEndCol := arg.end_col_offset
      let correspondingDefault := getArgDefault node functionArgEndCol arg.end_lineno
      match definedType with
      | none => .ok ([Finding.typeNotConstructed argName], functionArgEndCol, correspondingDefault)
      | some t =>
          let t1 := if correspondingDefault.isSome then t ++ ", optional" else t
          let t2 := pyReplace " " "" t1
          .ok ((if t2 == argType then [] else [Finding.typeMismatch argName argType t2]),
               functionArgEndCol, correspondingDefault)

/-- List indexing with the Python `IndexError` semantics. -/
def pyListGet (l : List String) (i : Nat) : PyM String :=
  match l.get? i with
  | some x => .ok x
  | none => .error .indexError

/-- The body of the `for argLine in argLines` loop of `_verifyArgLines`
(StandardCheck.py lines 374 to 413) for one docstring entry.  Returns the
findings appended for the entry plus the documented name recorded into
`docArgs` (absent when the line has no ` (` separator). -/
def verifyArgLine (node : FunctionDef) (argLine : String) : PyM (List Finding × Option String) :=
  let splitOnOpen := pySplit " (" argLine
  if splitOnOpen.length = 1 then .ok ([.noTypeDef], none)
  else do
    let argName := pyStrip (splitOnOpen.headD "")
    let e1 := if !docArgExists argName node.args
              then [Finding.docArgNotInArgs argName node.name] else []
    let midSplit := pySplit "):" ((splitOnOpen.get? 1).getD "")
    let argType := pyReplace " " "" (midSplit.headD "")
    let (e2, functionArgEndCol, correspondingDefault) ← matchArgAnnot node argName argType
    if functionArgEndCol ≠ -1 then do
      let definitionSentence ← pyListGet midSplit 1
      let e3 := if definitionSentence = ""
                then [Finding.noDescriptionSentence argName] else []
      let e4 ← verifySections node definitionSentence correspondingDefault argName
      .ok (e1 ++ e2 ++ e3 ++ e4, some argName)
    else .ok (e1 ++ e2, some argName)

/-- The entry loop of `_verifyArgLines`, accumulating findings and `docArgs`
in source order. -/
def verifyArgLinesLoop (node : FunctionDef) : List String → PyM (List Finding × List String)
  | [] => .ok ([], [])
  | argLine :: rest => do
      let (errs, docArg) ← verifyArgLine node argLine
      let (restErrs, restDocs) ← verifyArgLinesLoop node rest
      .ok (errs ++ restErrs, docArg.toList ++ restDocs)

/-- Model of `_verifyArgLines` (StandardCheck.py lines 362 to 415). -/
def verifyArgLines (node : FunctionDef) (argLines : List String) :
    PyM (List Finding × List String) :=
  verifyArgLinesLoop node argLines

/-- Fuelled worker for `squeeze`; at the call site the fuel (the string
length) bounds the number of replacement rounds, since each round shortens
the string. -/
def squeezeAux : Nat → String → String
  | 0, s => s
  | fuel + 1, s => if pyIn "  " s then squeezeAux fuel (pyReplace "  " " " s) else s

/-- Model of the normalisation loop `while "  " in section: section =
section.replace("  ", " ")` used throughout the docstring section checks. -/
def squeeze (s : String) : String := squeezeAux s.data.length s

/-- The outer loop of `_parseArgLines` (StandardCheck.py lines 341 to 360),
rewritten over the remaining lines: a line without the `):` delimiter at the
start of an entry aborts the whole parse (the Python `return` with no value),
and continuation lines lacking `):` are concatenated, with no separator, onto
the current entry.  The fuel is the line count plus one and every step
consumes at least one line. -/
def parseArgLinesLoop : Nat → List String → Option (List String)
  | 0, _ => none
  | _ + 1, [] => some []
  | fuel + 1, line :: rest =>
      if !pyIn "):" line then none
      else
        let cont := rest.takeWhile (fun l => !pyIn "):" l)
        let rest2 := rest.dropWhile (fun l => !pyIn "):" l)
        match parseArgLinesLoop fuel rest2 with
        | none => none
        | some ls => some ((line ++ pyJoin "" cont) :: ls)

/-- Model of `_parseArgLines` (StandardCheck.py lines 328 to 360): split the
section on newlines, skip the heading line, and parse the entries; `none`
models the Python `None` returned for a malformed section. -/
def parseArgLines (sect : String) : Option (List String) :=
  let splitArgsSection := pySplit "\n" sect
  if splitArgsSection.length < 2 then none
  else parseArgLinesLoop (splitArgsSection.length + 1) (splitArgsSection.drop 1)

/-- The implicit `self`-like and variadic parameter names never required in a
docstring (`self.specialVariables`). -/
def specialVariables : List String := ["self", "cls", "*args", "**kwargs"]

/-- Model of `_verifyFuncArgsInDoc`: report every actual parameter that is
neither documented nor special. -/
def verifyFuncArgsInDoc (node : FunctionDef) (docArgs : List String) : List Finding :=
  node.args.filterMap (fun functionArg =>
    if !docArgs.contains functionArg.arg && !specialVariables.contains functionArg.arg then
      some (Finding.argNotDocumented functionArg.arg)
    else none)

/-- Model of `docstringArgSection` (StandardCheck.py lines 222 to 245),
specialised to function nodes (the only callers relevant to the claims).
`if not argLines` treats both the `None` parse failure and an empty entry list
as an empty Args section. -/
def docstringArgSection (node : FunctionDef) (sect : String) : PyM (List Finding) := do
  let sect := pyStrip (squeeze sect)
  match parseArgLines sect with
  | none => .ok [Finding.argsSectionEmpty node.name]
  | some [] => .ok [Finding.argsSectionEmpty node.name]
  | some argLines => do
      let (errs, docArgs) ← verifyArgLines node argLines
      .ok (errs ++ verifyFuncArgsInDoc node docArgs)

/-- Model of `docstringReturnSection` (StandardCheck.py lines 247 to 285),
specialised to function nodes. -/
def docstringReturnSection (node : FunctionDef) (sect : String) : PyM (List Finding) := do
  let sect := pyStrip (squeeze sect)
  let splitReturnSection := pySplit "\n" sect
  if splitReturnSection.length < 2 then .ok [Finding.returnSectionMissing node.name]
  else do
    let returnLine ← pyListGet splitReturnSection 1
    let returnLineSplit := pySplit ":" returnLine
    if returnLineSplit.length < 2 then .ok [Finding.returnMissingTypeDef node.name]
    else do
      let returnType := pyReplace " " "" (pyStrip (returnLineSplit.headD ""))
      let funcReturnType ← getDefinedType node.returns
      match funcReturnType with
      | none => .ok [Finding.returnTypeNotConstructed node.name]
      | some frt =>
          let frt := pyReplace " " "" frt
          if frt ≠ returnType then .ok [Finding.returnTypeMismatch returnType frt]
          else .ok []

/-- Model of `docstringDescriptionCheck` (StandardCheck.py lines 287 to 311):
normalise the description and check the capital-start and period-end rules. -/
def docstringDescriptionCheck (node : FunctionDef) (sect : String) : List Finding :=
  let s := pyStrip sect
  let s := pyReplace "\n" " " s
  let s := pyReplace "\t" " " s
  let s := squeeze s
  let s := pyStrip s
  match s.data with
  | [] => [Finding.descriptionMissing node.name]
  | firstLetter :: _ =>
      (if firstLetter.isAlpha && firstLetter.toUpper ≠ firstLetter
       then [Finding.descriptionBeginCapital node.name] else [])
      ++ (if !pyEndsWith "." s then [Finding.descriptionEndPeriod node.name] else [])

/-- The final returns check of `verifyDocstring` (StandardCheck.py lines 218
to 220): `returnType` is truthy only when it is a non-empty string, and the
finding is suppressed when `str(returnType)` is the text `None`. -/
def returnTypeDocCheck (returns : Option Ann) (returnSectionFound : Bool) : PyM (List Finding) := do
  let returnType ← getDefinedType returns
  match returnType with
  | some s =>
      if s ≠ "" && !returnSectionFound && s ≠ "None" then .ok [Finding.returnNotDocumented]
      else .ok []
  | none => .ok []

/-- The `for i in range(1, len(splitDocstring))` loop of `verifyDocstring`
(StandardCheck.py lines 199 to 206): a block containing the text `Args:` is
parsed as an Args section and one containing `Returns:` as a Returns section
(both, in that order, if it contains both); the two found-flags accumulate
across blocks. -/
def sectionsPass (node : FunctionDef) : List String → PyM (List Finding × Bool × Bool)
  | [] => .ok ([], false, false)
  | sect :: rest => do
      let aHere := pyIn "Args:" sect
      let e1 ← if aHere then docstringArgSection node sect else .ok []
      let rHere := pyIn "Returns:" sect
      let e2 ← if rHere then docstringReturnSection node sect else .ok []
      let (es, aRest, rRest) ← sectionsPass node rest
      .ok (e1 ++ e2 ++ es, aHere || aRest, rHere || rRest)

/-- Model of `verifyDocstring` (StandardCheck.py lines 181 to 220) on a
function node: a missing or empty docstring is reported immediately; the
docstring is split on blank lines into a description block and further
blocks; then missing-Args and missing-Returns findings are appended. -/
def verifyDocstring (node : FunctionDef) : PyM (List Finding) :=
  match node.docstring with
  | none => .ok [Finding.missingDocstring node.name]
  | some d =>
      if d = "" then .ok [Finding.missingDocstring node.name]
      else do
        let splitDocstring := pySplit "\n\n" d
        let description := splitDocstring.headD ""
        let descErrs := docstringDescriptionCheck node description
        let (secErrs, argSectionFound, returnSectionFound) ←
          sectionsPass node (splitDocstring.drop 1)
        let filteredArgs := node.args.filter (fun a => !specialVariables.contains a.arg)
        let argsNotDoc := if !argSectionFound && filteredArgs.length > 0
                          then [Finding.argsNotDocumented] else []
        let retErrs ← returnTypeDocCheck node.returns returnSectionFound
        .ok (descErrs ++ secErrs ++ argsNotDoc ++ retErrs)

end StandardCheck

namespace Replacement

/-- A function parameter as read by replacement.py: its name and whether it
carries an annotation. -/
structure RArg where
  arg : String
  hasAnnot : Bool
deriving DecidableEq, Repr

/-- A top-level or method function definition as consumed by replacement.py:
`defaultsMutable` records, for each element of `node.args.defaults` in order,
whether `is_mutable_default` holds of it (it is a list, dict or set display);
`returnsMissing` records `node.returns is None`. -/
structure RFunctionDef where
  name : String
  lineno : Int
  args : List RArg
  defaultsMutable : List Bool
  returnsMissing : Bool
  docstring : Option String
deriving DecidableEq, Repr

/-- A class definition as consumed by replacement.py: its name, line, the
`ast.FunctionDef` members of its body in order, and its docstring. -/
structure RClassDef where
  name : String
  lineno : Int
  funcs : List RFunctionDef
  docstring : Option String
deriving DecidableEq, Repr

/-- A top-level statement of the module body. -/
inductive RNode where
  | classDef (c : RClassDef)
  | functionDef (f : RFunctionDef)
  | otherStmt
deriving DecidableEq, Repr

/-- An `ast.Assign` node as visited by the variable loop: each target is
`some id` for an `ast.Name` target and `none` for any other target shape
(which the loop skips). -/
structure RAssign where
  targets : List (Option String)
  lineno : Int
deriving DecidableEq, Repr

/-- A parsed module: the top-level statement list (`tree.body`) and the
`ast.Assign` nodes produced by `ast.walk(tree)` in walk order.  The parser
producing both is an external capability of the checker. -/
structure RModule where
  body : List RNode
  walkAssigns : List RAssign
deriving DecidableEq, Repr

/-- Model of `FunctionSummary`. -/
structure FunctionSummary where
  function_name : String
  return_hint_missing : Bool
  params_missing_hints : List String
  params_with_mutable_defaults : List String
  has_docstring : Bool
  docstring : String
deriving DecidableEq, Repr

/-- Model of `ClassSummary` (the dead `Random` stub is omitted). -/
structure ClassSummary where
  class_name : String
  func_summaries : List FunctionSummary
  has_docstring : Bool
  docstring : String
deriving DecidableEq, Repr

/-- The implicit parameter names `create_function_summary` skips. -/
def rSpecialNames : List String := ["self", "cls", "*args", "**kwargs"]

/-- Model of `create_function_summary` (replacement.py lines 30 to 40).  Note
that the mutable-defaults computation zips `node.args.args` with
`node.args.defaults` from the left, as the source does. -/
def create_function_summary (node : RFunctionDef) : FunctionSummary :=
  ⟨node.name,
   node.returnsMissing,
   ((node.args.filter (fun a => !rSpecialNames.contains a.arg && !a.hasAnnot)).map (·.arg)),
   (((node.args.zip node.defaultsMutable).filter (·.2)).map (·.1.arg)),
   node.docstring.isSome,
   node.docstring.getD ""⟩

/-- Model of `create_class_summary` (replacement.py lines 42 to 47). -/
def create_class_summary (node : RClassDef) : ClassSummary :=
  ⟨node.name, node.funcs.map create_function_summary,
   node.docstring.isSome, node.docstring.getD ""⟩

/-- Model of `isPascalCase` (replacement.py line 103): full match against the
pattern anchored on both sides.  Because the mandatory `[A-Za-z0-9]+` group
can absorb the whole remainder and the trailing group can be empty, the
pattern accepts exactly the ASCII-alphanumeric strings of length at least two
whose first character is an uppercase letter. -/
def isPascalCase (name : String) : Bool :=
  match name.data with
  | [] => false
  | c :: rest => (c.isUpper && !rest.isEmpty) && rest.all Char.isAlphanum

/-- Model of `isSnakeCase` (replacement.py lines 107 to 116). -/
def isSnakeCase (name : String) : Bool :=
  if pyIn "_" name then
    if (pySplit "_" name).any (fun part => part ≠ "" && !pyIsLowerStr part) then false
    else if pyIn "__" name then false
    else true
  else pyIsLowerStr name && pyIsAlnumStr name

/-- Model of `is_valid_format` (replacement.py lines 91 to 101).  The
`ignoreItems` list stands for the cached contents of the `.standardignore`
file, an external input loaded by `load_items_to_ignore`. -/
def is_valid_format (ignoreItems : List String) (name : String) (is_class : Bool) : Bool :=
  if ignoreItems.contains name then true
  else if pyIsUpperStr name then true
  else if pyStartsWith "_" name then true
  else if is_class then isPascalCase name
  else isSnakeCase name

/-- Model of `identify_func_problems` (replacement.py lines 66 to 78). -/
def identify_func_problems (ignoreItems : List String) (func_sum : FunctionSummary) :
    List String :=
  (func_sum.params_missing_hints.map (fun param =>
    "Function " ++ func_sum.function_name ++ " needs type annotation for the parameter "
      ++ param ++ "."))
  ++ (func_sum.params_with_mutable_defaults.map (fun param =>
    "Function " ++ func_sum.function_name ++ apos ++ "s parameter " ++ param
      ++ " defaults to a mutable object."))
  ++ (if !func_sum.has_docstring then
        ["Function " ++ func_sum.function_name ++ " is missing a docstring."] else [])
  ++ (if !is_valid_format ignoreItems func_sum.function_name false then
        ["Function " ++ func_sum.function_name ++ apos
          ++ " name is not in a valid format. Please use snake case when possible, or, if an exception is needed, add to .standardignore"]
      else [])

/-- Model of `identify_class_problems` (replacement.py lines 49 to 64). -/
def identify_class_problems (ignoreItems : List String) (class_sum : ClassSummary) :
    List String :=
  (if !class_sum.has_docstring then
     ["Class " ++ class_sum.class_name ++ " is missing a docstring."] else [])
  ++ (if !is_valid_format ignoreItems class_sum.class_name true then
        ["Class " ++ class_sum.class_name ++ apos
          ++ " name is not in a valid format. Please use Pascal case when possible, or, if an exception is needed, add to .standardignore"]
      else [])
  ++ (class_sum.func_summaries.map (identify_func_problems ignoreItems)).flatten

/-- The class loop of `check_file` (replacement.py lines 126 to 133): collect
the report entries for classes with problems, and return the value left in
the local variable `class_problems` afterwards (`none` when the loop body
never ran on a class, so the variable was never assigned). -/
def classLoop (ignoreItems : List String) : List RNode → List String × Option (List String)
  | [] => ([], none)
  | .classDef node :: rest =>
      let class_sum := create_class_summary node
      let class_problems := identify_class_problems ignoreItems class_sum
      let (entries, lastCp) := classLoop ignoreItems rest
      let entry :=
        if class_problems.isEmpty then []
        else [pyJoin "\n\t"
          (("Class " ++ class_sum.class_name ++ " on line " ++ toString node.lineno ++ ":")
            :: class_problems)]
      (entry ++ entries, some (lastCp.getD class_problems))
  | _ :: rest => classLoop ignoreItems rest

/-- The function loop of `check_file` (replacement.py lines 136 to 143).  The
entry for a function with problems joins `class_problems` — the list left
over from the class loop — not the `func_problems` just computed; reading
`class_problems` when the class loop never assigned it raises `NameError`. -/
def funcLoop (ignoreItems : List String) (class_problems : Option (List String)) :
    List RNode → PyM (List String)
  | [] => .ok []
  | .functionDef node :: rest => do
      let func_sum := create_function_summary node
      let func_problems := identify_func_problems ignoreItems func_sum
      if func_problems.isEmpty then funcLoop ignoreItems class_problems rest
      else
        match class_problems with
        | none => .error .nameError
        | some cp => do
            let entries ← funcLoop ignoreItems class_problems rest
            .ok (pyJoin "\n\t"
              (("Function " ++ func_sum.function_name ++ " on line "
                  ++ toString node.lineno ++ ":") :: cp) :: entries)
  | _ :: rest => funcLoop ignoreItems class_problems rest

/-- The variable loop of `check_file` (replacement.py lines 146 to 154). -/
def varLoop (ignoreItems : List String) : List RAssign → List String
  | [] => []
  | a :: rest =>
      (a.targets.filterMap (fun t =>
        match t with
        | some id =>
            if is_valid_format ignoreItems id false then none
            else some ("Variable " ++ id ++ " on line " ++ toString a.lineno
              ++ " is not valid. Please change to snake case, or, if an exception is needed, add to .standardignore")
        | none => none))
      ++ varLoop ignoreItems rest

/-- Model of `check_file` (replacement.py lines 118 to 155): the three loops
in order, with the `class_problems` local threaded from the class loop into
the function loop. -/
def check_file (ignoreItems : List String) (tree : RModule) : PyM (List String) := do
  let (classEntries, class_problems) := classLoop ignoreItems tree.body
  let funcEntries ← funcLoop ignoreItems class_problems tree.body
  .ok (classEntries ++ funcEntries ++ varLoop ignoreItems tree.walkAssigns)

end Replacement

namespace FileHandler

/-- Python type objects compared by `type(fileData) != expectedType`. -/
inductive PyType where
  | dictT
  | listT
  | strT
  | intT
  | boolT
  | noneT
deriving DecidableEq, Repr

/-- JSON values as loaded by `json.load`. -/
inductive Json where
  | dictV (kvs : List (String × Json))
  | listV (xs : List Json)
  | strV (s : String)
  | intV (n : Int)
  | boolV (b : Bool)
  | nullV

/-- The Python runtime type of a loaded JSON value. -/
def Json.pytype : Json → PyType
  | .dictV _ => .dictT
  | .listV _ => .listT
  | .strV _ => .strT
  | .intV _ => .intT
  | .boolV _ => .boolT
  | .nullV => .noneT

/-- The class-level state touched by `FileHandler.__new__`: a counter of
fresh object identities and the `cls.instance` attribute, absent until first
construction. -/
structure ClsState where
  nextId : Nat
  inst : Option Nat
deriving DecidableEq, Repr

/-- Model of `FileHandler.__new__` (fileHandler.py lines 6 to 10): if
`cls.instance` is unset, allocate a fresh object and store it there; return
`cls.instance`.  The returned `Nat` is the identity of the returned object. -/
def FileHandler_new (cls : ClsState) : Nat × ClsState :=
  match cls.inst with
  | some i => (i, cls)
  | none => (cls.nextId, ⟨cls.nextId + 1, some cls.nextId⟩)

/-- The instance attribute dictionary written by `setattr(self, filePath,
fileData)` and read by `hasattr`/`getattr`. -/
structure FHInstance where
  attrs : List (String × Json)

/-- Model of `hasattr(self, filePath)` and `getattr(self, filePath)` at once. -/
def lookupAttr (self : FHInstance) (filePath : String) : Option Json :=
  (self.attrs.find? (fun p => p.1 == filePath)).map (·.2)

/-- The conversion step of `getFileData` (fileHandler.py lines 30 to 31):
apply `convertTypeFunc` when it is given and the runtime type of the data
differs from `expectedType` (`none` models Python `None`, which is unequal to
every type object). -/
def convertStep (convertTypeFunc : Option (Json → Json)) (expectedType : Option PyType)
    (fileData : Json) : Json :=
  match convertTypeFunc with
  | some f => if expectedType ≠ some fileData.pytype then f fileData else fileData
  | none => fileData

/-- Model of `FileHandler.getFileData` (fileHandler.py lines 12 to 32): if the
instance already has an attribute named by the path, use it; otherwise read
the file (the `disk` map stands for the file system; `none` raises), parse it
and store it on the instance; finally apply the optional conversion to the
value returned (not to the stored attribute).  The Bool in the result records
whether the call opened the file. -/
def getFileData (disk : String → Option Json) (self : FHInstance) (filePath : String)
    (convertTypeFunc : Option (Json → Json)) (expectedType : Option PyType) :
    PyM (Json × FHInstance × Bool) :=
  match lookupAttr self filePath with
  | some fileData => .ok (convertStep convertTypeFunc expectedType fileData, self, false)
  | none =>
      match disk filePath with
      | none => .error .ioError
      | some loaded =>
          .ok (convertStep convertTypeFunc expectedType loaded,
               ⟨self.attrs ++ [(filePath, loaded)]⟩, true)

end FileHandler

/-! ## Claim theorems -/

/-- Equality of `Except` values is decidable when both components are. -/
instance instDecEqExceptPy {ε α : Type} [DecidableEq ε] [DecidableEq α] :
    DecidableEq (Except ε α)
  | .ok a, .ok b =>
      if h : a = b then .isTrue (by rw [h])
      else .isFalse (by intro hh; cases hh; exact h rfl)
  | .ok _, .error _ => .isFalse (by intro h; cases h)
  | .error _, .ok _ => .isFalse (by intro h; cases h)
  | .error a, .error b =>
      if h : a = b then .isTrue (by rw [h])
      else .isFalse (by intro hh; cases hh; exact h rfl)

open StandardCheck

/-- A function node with neither parameters nor defaults, used as the ambient
node of clause-level checks (the node is only used for message prefixes in the
source). -/
def emptyNode : FunctionDef := ⟨"f", 1, [], [], none, none⟩

/-- C4: a subscripted annotation whose outer expression is not a simple name
does NOT return undeterminable quietly; evaluating `annotation.value.id`
raises `AttributeError` instead (attribute chain, nested subscript, and any
other outer shape all raise), while a simple-name outer succeeds.  The claim
(and spec section 4.1) say no error is raised and `None` is returned; the
clear intent — the caller at line 398 of StandardCheck.py handles a `None`
result with its own finding — makes the direct `.id` access a slip in the
code. -/
theorem C4_subscript_outer_raises_attribute_error :
    getDefinedTypeA (.subscript (.attrA (.nameA "a") "b") (.nameA "int"))
      = .error .attributeError
    ∧ getDefinedTypeA (.subscript (.subscript (.nameA "l") (.nameA "int")) (.nameA "str"))
      = .error .attributeError
    ∧ getDefinedTypeA (.subscript .otherA (.nameA "int")) = .error .attributeError
    ∧ getDefinedTypeA (.subscript (.nameA "list") (.nameA "int")) = .ok (some "list[int]") :=
  ⟨rfl, rfl, rfl, rfl⟩

/-- C8: a whitespace-only clause between semicolons passes the pre-strip
emptiness test, strips to the empty string, and the subsequent first-character
index fails (modelled as `IndexError`); by contrast a truly empty clause is
reported as an empty section.  So the failure branch is reachable and a
whitespace-only clause is not treated as an empty section. -/
theorem C8_whitespace_clause_reaches_index_error :
    verifySections emptyNode "a value; ; more" none "x" = .error .indexError
    ∧ checkSection emptyNode none "x" " " = .error .indexError
    ∧ checkSection emptyNode none "x" "" = .ok ([.emptySection "x"], false) :=
  ⟨rfl, rfl, rfl⟩

/-- C2: with the `-1` sentinel the default locator returns none immediately;
with a known end column it returns a default exactly when some default starts
exactly 1 or exactly 3 columns past the parameter end and ends on the
parameter end line, and any returned default satisfies that property (so a
column difference of 2 never matches). -/
theorem C2_default_locator_positional (node : FunctionDef) (c r : Int) :
    getArgDefault node (-1) r = none
    ∧ (c ≠ -1 →
        (((getArgDefault node c r).isSome ↔
            ∃ dflt ∈ node.defaults,
              (dflt.col_offset - c = 1 ∨ dflt.col_offset - c = 3) ∧ r = dflt.end_lineno)
          ∧ ∀ dflt, getArgDefault node c r = some dflt →
              dflt ∈ node.defaults
                ∧ (dflt.col_offset - c = 1 ∨ dflt.col_offset - c = 3)
                ∧ r = dflt.end_lineno)) := by
  constructor
  · simp [getArgDefault]
  · intro hc
    rw [getArgDefault, if_neg hc]
    constructor
    · rw [List.find?_isSome]
      constructor
      · rintro ⟨dflt, hmem, hp⟩
        simp only [Bool.and_eq_true, Bool.or_eq_true, beq_iff_eq] at hp
        exact ⟨dflt, hmem, hp.1, hp.2⟩
      · rintro ⟨dflt, hmem, h1, h2⟩
        refine ⟨dflt, hmem, ?_⟩
        simp only [Bool.and_eq_true, Bool.or_eq_true, beq_iff_eq]
        exact ⟨h1, h2⟩
    · intro dflt hfind
      have hm := List.mem_of_find?_eq_some hfind
      have hp := List.find?_some hfind
      simp only [Bool.and_eq_true, Bool.or_eq_true, beq_iff_eq] at hp
      exact ⟨hm, hp.1, hp.2⟩

/-- A parameter `x : int` ending at column 12 of line 1. -/
def argC1 : Arg := ⟨"x", some (.nameA "int"), 12, 1⟩

/-- A function `f(x: int=5)` whose default starts at column 13 of line 1
(bare `name=value` spacing, column difference 1). -/
def fC1 : FunctionDef := ⟨"f", 1, [argC1], [⟨13, 1, .constN (.intV 5)⟩], none, none⟩

/-- C1: when the documented name matches a parameter with a reconstructable
annotation and the locator finds a default, the reconstructed type gains the
literal `, optional` suffix and is compared space-stripped, with a mismatch
finding carrying both the documented and the reconstructed value; hence a
parameter annotated `int` with a located default matches documentation
`int, optional` but mismatches `int`. -/
theorem C1_optional_suffix_and_space_stripped_compare :
    (∀ (node : FunctionDef) (argName argType t : String) (arg : Arg),
        node.args.find? (fun a => a.arg == argName) = some arg →
        getDefinedType arg.annot = .ok (some t) →
        (getArgDefault node arg.end_col_offset arg.end_lineno).isSome = true →
        matchArgAnnot node argName argType =
          .ok ((if pyReplace " " "" (t ++ ", optional") == argType then []
                else [Finding.typeMismatch argName argType (pyReplace " " "" (t ++ ", optional"))]),
               arg.end_col_offset,
               getArgDefault node arg.end_col_offset arg.end_lineno))
    ∧ verifyArgLines fC1 ["x (int, optional): a value; defaults to 5"] = .ok ([], ["x"])
    ∧ verifyArgLines fC1 ["x (int): a value; defaults to 5"] =
        .ok ([.typeMismatch "x" "int" "int,optional"], ["x"]) := by
  refine ⟨?_, rfl, rfl⟩
  intro node argName argType t arg hfind ht hd
  simp only [matchArgAnnot, hfind, ht, hd, bind, Except.bind, if_true]

/-- Witness for C2 at a concrete function: one default at column 13, line 1,
probed from a parameter ending at column 12 of line 1. -/
theorem C2_default_locator_positional_witness :
    (((getArgDefault fC1 12 1).isSome ↔
        ∃ dflt ∈ fC1.defaults,
          (dflt.col_offset - 12 = 1 ∨ dflt.col_offset - 12 = 3) ∧ 1 = dflt.end_lineno)
      ∧ ∀ dflt, getArgDefault fC1 12 1 = some dflt →
          dflt ∈ fC1.defaults
            ∧ (dflt.col_offset - 12 = 1 ∨ dflt.col_offset - 12 = 3)
            ∧ 1 = dflt.end_lineno) :=
  (C2_default_locator_positional fC1 12 1).2 (by decide)

/-- Witness for C1: instantiating the general part at the concrete function
`fC1` and the documented type `int,optional` evaluates to a match (no
finding). -/
theorem C1_optional_suffix_witness :
    matchArgAnnot fC1 "x" "int,optional" =
      .ok ((if pyReplace " " "" ("int" ++ ", optional") == "int,optional" then []
            else [Finding.typeMismatch "x" "int,optional"
                    (pyReplace " " "" ("int" ++ ", optional"))]),
           argC1.end_col_offset,
           getArgDefault fC1 argC1.end_col_offset argC1.end_lineno) :=
  C1_optional_suffix_and_space_stripped_compare.1 fC1 "x" "int,optional" "int" argC1 rfl rfl rfl

/-- A parameter whose annotation expression has a shape the reconstructor
does not handle (for example a call), ending at column 8 of line 1. -/
def argC3 : Arg := ⟨"x", some .otherA, 8, 1⟩

/-- A function with the single parameter `argC3` and no defaults. -/
def gC3 : FunctionDef := ⟨"g", 1, [argC3], [], none, none⟩

/-- C3 counterexample: for a documented entry whose parameter annotation is
undeterminable, the checker reports the could-not-be-constructed finding but
does NOT skip the remaining checks for the entry: the empty-description
finding and a sentence-format finding (empty section) are also produced,
contradicting the claim that all further checks are skipped. -/
theorem C3_counterexample_description_checks_still_run :
    verifyArgLines gC3 ["x (int):"] =
      .ok ([.typeNotConstructed "x", .noDescriptionSentence "x", .emptySection "x"], ["x"]) :=
  rfl

/-- C3 amended: an undeterminable annotation yields the
could-not-be-constructed finding and skips only the type-match comparison;
because the parameter end column is recorded before the skip, the
empty-description and sentence-format checks still run for the entry (the
second conjunct shows capital-letter and period findings co-occurring). -/
theorem C3_amended_only_type_comparison_skipped :
    (∀ (node : FunctionDef) (argName argType : String) (arg : Arg),
        node.args.find? (fun a => a.arg == argName) = some arg →
        getDefinedType arg.annot = .ok none →
        matchArgAnnot node argName argType =
          .ok ([.typeNotConstructed argName], arg.end_col_offset,
               getArgDefault node arg.end_col_offset arg.end_lineno))
    ∧ verifyArgLines gC3 ["x (int): Desc."] =
        .ok ([.typeNotConstructed "x", .capitalSection "x", .endsWithPeriod "x"], ["x"]) := by
  refine ⟨?_, rfl⟩
  intro node argName argType arg hfind ht
  simp only [matchArgAnnot, hfind, ht, bind, Except.bind]

/-- Witness for C3: the amended statement instantiated at `gC3`. -/
theorem C3_amended_witness :
    matchArgAnnot gC3 "x" "int" =
      .ok ([.typeNotConstructed "x"], argC3.end_col_offset,
           getArgDefault gC3 argC3.end_col_offset argC3.end_lineno) :=
  C3_amended_only_type_comparison_skipped.1 gC3 "x" "int" argC3 rfl rfl

/-- C6 counterexample: a clause starting with a digit (`3 items`) is reported
as beginning with a capital letter, because the source test
`section[0].capitalize() == section[0]` holds for every character that
upper-cases to itself — not only for uppercase letters, contradicting the
claim that non-letter starts yield no finding. -/
theorem C6_counterexample_digit_start_reported :
    verifySections emptyNode "3 items" none "x" = .ok [.capitalSection "x"] := rfl

/-- C6 amended: for a clause that is non-empty before stripping and non-empty
after stripping, the beginning-capital finding is reported if and only if the
stripped clause's first character is unchanged by upper-casing — that is, iff
it is NOT a lowercase letter; uppercase letters, digits and punctuation all
trigger it. -/
theorem C6_amended_capital_iff_first_char_fixed_by_upper :
    ∀ (node : FunctionDef) (d : Option DefaultExpr) (argName sect : String)
      (res : List Finding) (flag : Bool) (c : Char) (rest : List Char),
      sect ≠ "" → (pyStrip sect).data = c :: rest →
      checkSection node d argName sect = .ok (res, flag) →
      (Finding.capitalSection argName ∈ res ↔ c.toUpper = c) := by
  intro node d argName sect res flag c rest hne hdata hok
  rw [checkSection, if_neg hne] at hok
  simp only [hdata] at hok
  split at hok
  · split at hok
    · split at hok
      · injection hok with h1
        injection h1 with hres hflag
        subst hres
        by_cases h : c.toUpper = c <;> simp [h]
      · cases hok
    · injection hok with h1
      injection h1 with hres hflag
      subst hres
      by_cases h : c.toUpper = c <;> simp [h]
  · injection hok with h1
    injection h1 with hres hflag
    subst hres
    by_cases h : c.toUpper = c <;> simp [h]

/-- A function returning the empty tuple annotation `()` with a docstring
that has no Returns section: the reconstructed return type is the empty
string, which is falsy in the guard of line 219 of StandardCheck.py. -/
def hC5 : FunctionDef := ⟨"h", 1, [], [], some (.tupleA []), some "Does things."⟩

/-- C5 counterexample: `hC5` declares a return annotation (the empty tuple),
its docstring lacks a Returns section, and the reconstructed return type is
the empty string — which differs from the text `None` — yet NO
return-not-documented finding is emitted, because the guard `if returnType`
is a Python truthiness test that an empty string fails.  The claim predicts a
finding here. -/
theorem C5_counterexample_empty_reconstruction_suppresses :
    verifyDocstring hC5 = .ok [] := rfl

/-- Helper for the C5 analysis: the per-clause check never produces the
return-not-documented finding. -/
theorem retfree_checkSection {node : FunctionDef} {d : Option DefaultExpr}
    {argName sect : String} {res : List Finding} {flag : Bool}
    (hok : checkSection node d argName sect = .ok (res, flag)) :
    Finding.returnNotDocumented ∉ res := by
  rw [checkSection] at hok
  by_cases hse : sect = ""
  · rw [if_pos hse] at hok
    injection hok with h1
    injection h1 with hres hflag
    subst hres
    simp
  · rw [if_neg hse] at hok
    cases hdata : (pyStrip sect).data with
    | nil =>
        simp only [hdata] at hok
        exact Except.noConfusion hok
    | cons c tl =>
        simp only [hdata] at hok
        by_cases hdt : pyIn "defaults to" (pyStrip sect) = true
        · rw [if_pos hdt] at hok
          split at hok
          · split at hok
            · injection hok with h1
              injection h1 with hres hflag
              subst hres
              split_ifs <;> simp
            · exact Except.noConfusion hok
          · injection hok with h1
            injection h1 with hres hflag
            subst hres
            split_ifs <;> simp
        · rw [if_neg hdt] at hok
          injection hok with h1
          injection h1 with hres hflag
          subst hres
          split_ifs <;> simp

/-- Helper for the C5 analysis: the clause loop never produces the
return-not-documented finding. -/
theorem retfree_verifySectionsLoop {node : FunctionDef} {d : Option DefaultExpr}
    {argName : String} :
    ∀ (l : List String) (fd : Bool) {res : List Finding} {flag : Bool},
      verifySectionsLoop node d argName l fd = .ok (res, flag) →
      Finding.returnNotDocumented ∉ res := by
  intro l
  induction l with
  | nil =>
      intro fd res flag h
      injection h with h1
      injection h1 with hres hflag
      subst hres
      simp
  | cons s rest ih =>
      intro fd res flag h
      cases hcs : checkSection node d argName s with
      | error e =>
          simp only [verifySectionsLoop, hcs, bind, Except.bind] at h
          exact Except.noConfusion h
      | ok p =>
          obtain ⟨e, f⟩ := p
          cases hrec : verifySectionsLoop node d argName rest (fd || f) with
          | error e2 =>
              simp only [verifySectionsLoop, hcs, hrec, bind, Except.bind] at h
              exact Except.noConfusion h
          | ok q =>
              obtain ⟨es, ff⟩ := q
              simp only [verifySectionsLoop, hcs, hrec, bind, Except.bind] at h
              injection h with h1
              injection h1 with hres hflag
              subst hres
              simp only [List.mem_append, not_or]
              exact ⟨retfree_checkSection hcs, ih _ hrec⟩

/-- Helper for the C5 analysis: `_verifySections` never produces the
return-not-documented finding. -/
theorem retfree_verifySections {node : FunctionDef} {definition : String}
    {d : Option DefaultExpr} {argName : String} {res : List Finding}
    (h : verifySections node definition d argName = .ok res) :
    Finding.returnNotDocumented ∉ res := by
  rw [verifySections] at h
  cases hl : verifySectionsLoop node d argName (pySplit ";" definition) false with
  | error e =>
      simp only [hl, bind, Except.bind] at h
      exact Except.noConfusion h
  | ok p =>
      obtain ⟨errs, fd⟩ := p
      simp only [hl, bind, Except.bind] at h
      have hfree := retfree_verifySectionsLoop _ _ hl
      split at h
      · split at h
        · cases hv : defaultNodeValue _ with
          | error e =>
              rw [hv] at h
              exact Except.noConfusion h
          | ok v =>
              rw [hv] at h
              injection h with h1
              subst h1
              simp only [List.mem_append, not_or]
              exact ⟨hfree, by simp⟩
        · injection h with h1
          subst h1
          simpa using hfree
      · injection h with h1
        subst h1
        simpa using hfree

/-- Helper for the C5 analysis: the parameter-matching loop never produces
the return-not-documented finding. -/
theorem retfree_matchArgAnnot {node : FunctionDef} {argName argType : String}
    {res : List Finding} {col : Int} {dopt : Option DefaultExpr}
    (h : matchArgAnnot node argName argType = .ok (res, col, dopt)) :
    Finding.returnNotDocumented ∉ res := by
  rw [matchArgAnnot] at h
  split at h
  · injection h with h1
    injection h1 with hres hrest
    subst hres
    simp
  · cases hg : getDefinedType _ with
    | error e =>
        rw [hg] at h
        exact Except.noConfusion h
    | ok t? =>
        rw [hg] at h
        cases t? with
        | none =>
            injection h with h1
            injection h1 with hres hrest
            subst hres
            simp
        | some t =>
            injection h with h1
            injection h1 with hres hrest
            subst hres
            split_ifs <;> simp

/-- Helper for the C5 analysis: one docstring entry never produces the
return-not-documented finding. -/
theorem retfree_verifyArgLine {node : FunctionDef} {argLine : String}
    {res : List Finding} {dopt : Option String}
    (h : verifyArgLine node argLine = .ok (res, dopt)) :
    Finding.returnNotDocumented ∉ res := by
  rw [verifyArgLine] at h
  split at h
  · injection h with h1
    injection h1 with hres hrest
    subst hres
    simp
  · cases hm : matchArgAnnot node (pyStrip ((pySplit " (" argLine).headD ""))
        (pyReplace " " "" ((pySplit "):" (((pySplit " (" argLine).get? 1).getD "")).headD "")) with
    | error e =>
        simp only [hm, bind, Except.bind] at h
        exact Except.noConfusion h
    | ok p =>
        obtain ⟨e2, col, dflt⟩ := p
        simp only [hm, bind, Except.bind] at h
        split at h
        · cases hg : pyListGet (pySplit "):" (((pySplit " (" argLine).get? 1).getD "")) 1 with
          | error e =>
              rw [hg] at h
              exact Except.noConfusion h
          | ok ds =>
              rw [hg] at h
              cases hv : verifySections node ds dflt
                  (pyStrip ((pySplit " (" argLine).headD "")) with
              | error e =>
                  simp only [hv, bind, Except.bind] at h
                  exact Except.noConfusion h
              | ok e4 =>
                  simp only [hv, bind, Except.bind] at h
                  injection h with h1
                  injection h1 with hres hrest
                  subst hres
                  simp only [List.mem_append, not_or]
                  refine ⟨⟨⟨?_, retfree_matchArgAnnot hm⟩, ?_⟩, retfree_verifySections hv⟩
                  · split_ifs <;> simp
                  · split_ifs <;> simp
        · injection h with h1
          injection h1 with hres hrest
          subst hres
          simp only [List.mem_append, not_or]
          refine ⟨?_, retfree_matchArgAnnot hm⟩
          split_ifs <;> simp

/-- Helper for the C5 analysis: the entry loop never produces the
return-not-documented finding. -/
theorem retfree_verifyArgLinesLoop {node : FunctionDef} :
    ∀ (l : List String) {res : List Finding} {docs : List String},
      verifyArgLinesLoop node l = .ok (res, docs) →
      Finding.returnNotDocumented ∉ res := by
  intro l
  induction l with
  | nil =>
      intro res docs h
      injection h with h1
      injection h1 with hres hrest
      subst hres
      simp
  | cons line rest ih =>
      intro res docs h
      cases hL : verifyArgLine node line with
      | error e =>
          simp only [verifyArgLinesLoop, hL, bind, Except.bind] at h
          exact Except.noConfusion h
      | ok p =>
          obtain ⟨errs, docArg⟩ := p
          cases hrec : verifyArgLinesLoop node rest with
          | error e =>
              simp only [verifyArgLinesLoop, hL, hrec, bind, Except.bind] at h
              exact Except.noConfusion h
          | ok q =>
              obtain ⟨restErrs, restDocs⟩ := q
              simp only [verifyArgLinesLoop, hL, hrec, bind, Except.bind] at h
              injection h with h1
              injection h1 with hres hrest
              subst hres
              simp only [List.mem_append, not_or]
              exact ⟨retfree_verifyArgLine hL, ih hrec⟩

/-- Helper for the C5 analysis: the undocumented-parameter sweep never
produces the return-not-documented finding. -/
theorem retfree_verifyFuncArgsInDoc {node : FunctionDef} {docArgs : List String} :
    Finding.returnNotDocumented ∉ verifyFuncArgsInDoc node docArgs := by
  rw [verifyFuncArgsInDoc]
  simp only [List.mem_filterMap]
  rintro ⟨a, hmem, hfa⟩
  split at hfa
  · injection hfa with h1
    cases h1
  · cases hfa

/-- Helper for the C5 analysis: the Args-section handler never produces the
return-not-documented finding. -/
theorem retfree_docstringArgSection {node : FunctionDef} {sect : String}
    {res : List Finding} (h : docstringArgSection node sect = .ok res) :
    Finding.returnNotDocumented ∉ res := by
  rw [docstringArgSection] at h
  split at h
  · injection h with h1
    subst h1
    simp
  · injection h with h1
    subst h1
    simp
  · cases hv : verifyArgLines node _ with
    | error e =>
        rw [hv] at h
        exact Except.noConfusion h
    | ok p =>
        obtain ⟨errs, docArgs⟩ := p
        rw [hv] at h
        injection h with h1
        subst h1
        simp only [List.mem_append, not_or]
        exact ⟨retfree_verifyArgLinesLoop _ hv, retfree_verifyFuncArgsInDoc⟩

/-- Helper for the C5 analysis: the Returns-section handler never produces
the return-not-documented finding (its findings are the section-level ones). -/
theorem retfree_docstringReturnSection {node : FunctionDef} {sect : String}
    {res : List Finding} (h : docstringReturnSection node sect = .ok res) :
    Finding.returnNotDocumented ∉ res := by
  rw [docstringReturnSection] at h
  split at h
  · injection h with h1
    subst h1
    simp
  · cases hg : pyListGet (pySplit "\n" (pyStrip (squeeze sect))) 1 with
    | error e =>
        simp only [hg, bind, Except.bind] at h
        exact Except.noConfusion h
    | ok rl =>
        simp only [hg, bind, Except.bind] at h
        split at h
        · injection h with h1
          subst h1
          simp
        · cases hr2 : getDefinedType node.returns with
          | error e =>
              simp only [hr2, bind, Except.bind] at h
              exact Except.noConfusion h
          | ok t? =>
              simp only [hr2, bind, Except.bind] at h
              split at h
              · injection h with h1
                subst h1
                simp
              · split at h
                · injection h with h1
                  subst h1
                  simp
                · injection h with h1
                  subst h1
                  simp

/-- Helper for the C5 analysis: the section loop never produces the
return-not-documented finding. -/
theorem retfree_sectionsPass {node : FunctionDef} :
    ∀ (l : List String) {res : List Finding} {aF rF : Bool},
      sectionsPass node l = .ok (res, aF, rF) →
      Finding.returnNotDocumented ∉ res := by
  intro l
  induction l with
  | nil =>
      intro res aF rF h
      injection h with h1
      injection h1 with hres hrest
      subst hres
      simp
  | cons sect rest ih =>
      intro res aF rF h
      simp only [sectionsPass] at h
      by_cases hA1 : pyIn "Args:" sect = true
      · rw [if_pos hA1] at h
        cases hAS : docstringArgSection node sect with
        | error e =>
            simp only [hAS, bind, Except.bind] at h
            exact Except.noConfusion h
        | ok e1 =>
            simp only [hAS, bind, Except.bind] at h
            by_cases hR1 : pyIn "Returns:" sect = true
            · rw [if_pos hR1] at h
              cases hRS : docstringReturnSection node sect with
              | error e =>
                  simp only [hRS, bind, Except.bind] at h
                  exact Except.noConfusion h
              | ok e2 =>
                  simp only [hRS, bind, Except.bind] at h
                  cases hrec : sectionsPass node rest with
                  | error e =>
                      simp only [hrec, bind, Except.bind] at h
                      exact Except.noConfusion h
                  | ok q =>
                      obtain ⟨es, aRest, rRest⟩ := q
                      simp only [hrec, bind, Except.bind] at h
                      injection h with h1
                      injection h1 with hres hrest
                      subst hres
                      simp only [List.mem_append, not_or]
                      exact ⟨⟨retfree_docstringArgSection hAS,
                        retfree_docstringReturnSection hRS⟩, ih hrec⟩
            · rw [if_neg hR1] at h
              cases hrec : sectionsPass node rest with
              | error e =>
                  simp only [hrec, bind, Except.bind] at h
                  exact Except.noConfusion h
              | ok q =>
                  obtain ⟨es, aRest, rRest⟩ := q
                  simp only [hrec, bind, Except.bind] at h
                  injection h with h1
                  injection h1 with hres hrest
                  subst hres
                  simp only [List.mem_append, not_or]
                  exact ⟨⟨retfree_docstringArgSection hAS, by simp⟩, ih hrec⟩
      · rw [if_neg hA1] at h
        simp only [bind, Except.bind] at h
        by_cases hR1 : pyIn "Returns:" sect = true
        · rw [if_pos hR1] at h
          cases hRS : docstringReturnSection node sect with
          | error e =>
              simp only [hRS, bind, Except.bind] at h
              exact Except.noConfusion h
          | ok e2 =>
              simp only [hRS, bind, Except.bind] at h
              cases hrec : sectionsPass node rest with
              | error e =>
                  simp only [hrec, bind, Except.bind] at h
                  exact Except.noConfusion h
              | ok q =>
                  obtain ⟨es, aRest, rRest⟩ := q
                  simp only [hrec, bind, Except.bind] at h
                  injection h with h1
                  injection h1 with hres hrest
                  subst hres
                  simp only [List.mem_append, not_or]
                  exact ⟨⟨by simp, retfree_docstringReturnSection hRS⟩, ih hrec⟩
        · rw [if_neg hR1] at h
          cases hrec : sectionsPass node rest with
          | error e =>
              simp only [hrec, bind, Except.bind] at h
              exact Except.noConfusion h
          | ok q =>
              obtain ⟨es, aRest, rRest⟩ := q
              simp only [hrec, bind, Except.bind] at h
              injection h with h1
              injection h1 with hres hrest
              subst hres
              simpa using ih hrec

/-- Helper for the C5 analysis: the description check never produces the
return-not-documented finding. -/
theorem retfree_descriptionCheck {node : FunctionDef} {sect : String} :
    Finding.returnNotDocumented ∉ docstringDescriptionCheck node sect := by
  rw [docstringDescriptionCheck]
  split
  · simp
  · split_ifs <;> simp

/-- The segment appended by the final returns check when no Returns section
was found, as a function of the reconstructed return type. -/
def retSeg : Option String → List Finding
  | some s => if s ≠ "" && s ≠ "None" then [Finding.returnNotDocumented] else []
  | none => []

/-- With no Returns section found, the final returns check appends exactly
`retSeg` of the reconstructed type. -/
theorem returnTypeDocCheck_noSection {returns : Option Ann} {rt : Option String}
    (hr : getDefinedType returns = .ok rt) :
    returnTypeDocCheck returns false = .ok (retSeg rt) := by
  rw [returnTypeDocCheck]
  simp only [hr, bind, Except.bind]
  cases rt with
  | none => rfl
  | some s =>
      simp only [retSeg, Bool.not_false, Bool.and_true, Bool.true_and]
      by_cases h1 : s = "" <;> by_cases h2 : s = "None" <;> simp [h1, h2]

/-- C5 amended: for a function with a docstring and no Returns section found,
the return-not-documented finding is emitted if and only if the reconstructed
return type is a truthy string (non-`None` reconstruction result and
non-empty) different from the text `None`.  In particular a function with no
return annotation gets no finding, as the claim says, but a declared
annotation whose reconstruction is undeterminable or is the empty string also
gets none — the guard is a truthiness test, not a mere presence test. -/
theorem C5_amended_returns_check_requires_truthy :
    ∀ (node : FunctionDef) (d : String) (secErrs : List Finding) (aFound : Bool)
      (rt : Option String),
      node.docstring = some d → d ≠ "" →
      sectionsPass node ((pySplit "\n\n" d).drop 1) = .ok (secErrs, aFound, false) →
      getDefinedType node.returns = .ok rt →
      ∃ errs, verifyDocstring node = .ok errs ∧
        (Finding.returnNotDocumented ∈ errs ↔ ∃ s, rt = some s ∧ s ≠ "" ∧ s ≠ "None") := by
  intro node d secErrs aFound rt hdoc hne hs hr
  have hret := returnTypeDocCheck_noSection hr
  have hvd : verifyDocstring node = Except.ok
      (docstringDescriptionCheck node ((pySplit "\n\n" d).headD "") ++ secErrs ++
        (if !aFound && decide ((node.args.filter
            (fun a => !specialVariables.contains a.arg)).length > 0)
         then [Finding.argsNotDocumented] else []) ++ retSeg rt) := by
    simp only [verifyDocstring, hdoc]
    rw [if_neg hne]
    simp only [hs, hret, bind, Except.bind]
  refine ⟨_, hvd, ?_⟩
  have h1 : Finding.returnNotDocumented ∉
      docstringDescriptionCheck node ((pySplit "\n\n" d).headD "") :=
    retfree_descriptionCheck
  have h2 : Finding.returnNotDocumented ∉ secErrs := retfree_sectionsPass _ hs
  have h3 : Finding.returnNotDocumented ∉
      (if !aFound && decide ((node.args.filter
          (fun a => !specialVariables.contains a.arg)).length > 0)
       then [Finding.argsNotDocumented] else []) := by
    split <;> simp
  simp only [List.mem_append, h1, h2, h3, false_or]
  cases rt with
  | none => simp [retSeg]
  | some s =>
      by_cases hs1 : s = ""
      · simp [retSeg, hs1]
      · by_cases hs2 : s = "None"
        · simp [retSeg, hs1, hs2]
        · simp [retSeg, hs1, hs2]

/-- A function returning `int` with a one-block docstring and no Returns
section. -/
def hC5w : FunctionDef := ⟨"h", 1, [], [], some (.nameA "int"), some "Does things."⟩

/-- Witness for C5: the amended statement instantiated at a concrete function
whose reconstructed return type is the truthy string `int`. -/
theorem C5_amended_witness :
    ∃ errs, verifyDocstring hC5w = .ok errs ∧
      (Finding.returnNotDocumented ∈ errs ↔
        ∃ s, (some "int" : Option String) = some s ∧ s ≠ "" ∧ s ≠ "None") :=
  C5_amended_returns_check_requires_truthy hC5w "Does things." [] false (some "int")
    rfl (by decide) rfl rfl

/-- Witness for C6: a clause starting with an uppercase G; the finding is
present and the first character is fixed by upper-casing. -/
theorem C6_amended_witness :
    Finding.capitalSection "x" ∈ [Finding.capitalSection "x"] ↔ 'G'.toUpper = 'G' :=
  C6_amended_capital_iff_first_char_fixed_by_upper emptyNode none "x" "Go now"
    [Finding.capitalSection "x"] false 'G' "o now".data (by decide) rfl rfl

open Replacement

/-- A class whose only problem is its non-Pascal name. -/
def demoClass : RClassDef := ⟨"badclass", 2, [], some "doc"⟩

/-- A function whose only problem is its non-snake name. -/
def demoFun : RFunctionDef := ⟨"Bad_Fun", 5, [], [], false, some "doc"⟩

/-- A module with one problematic class followed by one problematic function. -/
def demoTree : RModule := ⟨[.classDef demoClass, .functionDef demoFun], []⟩

/-- The single problem recorded for `demoClass`. -/
def pcMsg : String :=
  "Class badclass" ++ apos
    ++ " name is not in a valid format. Please use Pascal case when possible, or, if an exception is needed, add to .standardignore"

/-- C7: in replacement.py, the report entry for a top-level function with a
non-empty problem list joins the `class_problems` list left over from the
class loop, not the function problems just computed; concretely, the entry
for `Bad_Fun` carries the problem text of `badclass`. -/
theorem C7_function_entry_reuses_class_problems :
    (∀ (ignoreItems cp : List String) (node : RFunctionDef) (rest : List RNode),
        identify_func_problems ignoreItems (create_function_summary node) ≠ [] →
        funcLoop ignoreItems (some cp) (.functionDef node :: rest) =
          (funcLoop ignoreItems (some cp) rest).map (fun entries =>
            pyJoin "\n\t" (("Function " ++ (create_function_summary node).function_name
              ++ " on line " ++ toString node.lineno ++ ":") :: cp) :: entries))
    ∧ check_file [] demoTree =
        .ok ["Class badclass on line 2:" ++ "\n\t" ++ pcMsg,
             "Function Bad_Fun on line 5:" ++ "\n\t" ++ pcMsg] := by
  constructor
  · intro ignoreItems cp node rest hne
    have hI : (identify_func_problems ignoreItems (create_function_summary node)).isEmpty
        = false := by
      cases hL : identify_func_problems ignoreItems (create_function_summary node) with
      | nil => exact absurd hL hne
      | cons a l => rfl
    simp only [funcLoop, hI]
    cases hrec : funcLoop ignoreItems (some cp) rest with
    | error e => simp [hrec, Except.map, bind, Except.bind]
    | ok entries => simp [hrec, Except.map, bind, Except.bind]
  · rfl

/-- Witness for C7: the general part applied to `demoFun` with the leftover
class-problem list `[pcMsg]`. -/
theorem C7_function_entry_reuses_class_problems_witness :
    funcLoop [] (some [pcMsg]) [.functionDef demoFun] =
      (funcLoop [] (some [pcMsg]) ([] : List RNode)).map (fun entries =>
        pyJoin "\n\t" (("Function " ++ (create_function_summary demoFun).function_name
          ++ " on line " ++ toString demoFun.lineno ++ ":") :: [pcMsg]) :: entries) :=
  C7_function_entry_reuses_class_problems.1 [] [pcMsg] demoFun [] (by decide)

/-- Whether a top-level statement is a class definition. -/
def isClassNode : RNode → Bool
  | .classDef _ => true
  | _ => false

/-- With no class statement in the body, the class loop never assigns the
`class_problems` local. -/
theorem classLoop_no_class (ignoreItems : List String) :
    ∀ {l : List RNode}, (∀ n ∈ l, isClassNode n = false) →
      (classLoop ignoreItems l).2 = none := by
  intro l
  induction l with
  | nil => intro _; rfl
  | cons n rest ih =>
      intro h
      cases n with
      | classDef c => exact absurd (h _ (List.mem_cons_self _ _)) (by simp [isClassNode])
      | functionDef f =>
          simp only [classLoop]
          exact ih (fun m hm => h m (List.mem_cons_of_mem _ hm))
      | otherStmt =>
          simp only [classLoop]
          exact ih (fun m hm => h m (List.mem_cons_of_mem _ hm))

/-- With `class_problems` unbound, the function loop raises the name error at
the first function whose problem list is non-empty. -/
theorem funcLoop_unbound_raises (ignoreItems : List String) :
    ∀ (l : List RNode),
      (∃ f, RNode.functionDef f ∈ l ∧
        identify_func_problems ignoreItems (create_function_summary f) ≠ []) →
      funcLoop ignoreItems none l = .error .nameError := by
  intro l
  induction l with
  | nil =>
      rintro ⟨f, hmem, _⟩
      cases hmem
  | cons n rest ih =>
      rintro ⟨f, hmem, hne⟩
      cases n with
      | functionDef g =>
          by_cases hg : (identify_func_problems ignoreItems (create_function_summary g)).isEmpty
              = true
          · simp only [funcLoop, hg, if_true]
            apply ih
            rcases List.mem_cons.mp hmem with heq | hmem2
            · injection heq with hfg
              subst hfg
              cases hL : identify_func_problems ignoreItems (create_function_summary f) with
              | nil => exact absurd hL hne
              | cons a as => rw [hL] at hg; cases hg
            · exact ⟨f, hmem2, hne⟩
          · simp only [funcLoop]
            rw [if_neg hg]
      | classDef c =>
          simp only [funcLoop]
          apply ih
          rcases List.mem_cons.mp hmem with heq | hmem2
          · cases heq
          · exact ⟨f, hmem2, hne⟩
      | otherStmt =>
          simp only [funcLoop]
          apply ih
          rcases List.mem_cons.mp hmem with heq | hmem2
          · cases heq
          · exact ⟨f, hmem2, hne⟩

/-- C9: for a module whose top level has no class definition but has a
function with at least one problem, replacement.py `check_file` reads the
never-assigned `class_problems` variable and fails with a name error instead
of returning a findings list. -/
theorem C9_no_class_unbound_name_error :
    ∀ (ignoreItems : List String) (tree : RModule),
      tree.body.all (fun n => !isClassNode n) = true →
      (∃ f, RNode.functionDef f ∈ tree.body ∧
        identify_func_problems ignoreItems (create_function_summary f) ≠ []) →
      check_file ignoreItems tree = .error .nameError := by
  intro ignoreItems tree hnc hex
  have hall : ∀ n ∈ tree.body, isClassNode n = false := by
    intro n hn
    have := (List.all_eq_true.mp hnc) n hn
    simpa using this
  have h2 := classLoop_no_class ignoreItems hall
  have h3 := funcLoop_unbound_raises ignoreItems tree.body hex
  rw [check_file]
  cases hcl : classLoop ignoreItems tree.body with
  | mk ce cp =>
      rw [hcl] at h2
      simp only at h2
      subst h2
      simp only [hcl, h3, bind, Except.bind]

/-- A module with a single problematic function and no class. -/
def tree9 : RModule := ⟨[.functionDef ⟨"BadName", 3, [], [], true, none⟩], []⟩

/-- Witness for C9: the concrete no-class module crashes with the name
error. -/
theorem C9_no_class_unbound_name_error_witness :
    check_file [] tree9 = .error .nameError :=
  C9_no_class_unbound_name_error [] tree9 (by decide)
    ⟨⟨"BadName", 3, [], [], true, none⟩, by decide, by decide⟩

open FileHandler

/-- Helper: a failed search in the first list passes `find?` to the second. -/
theorem find?_append_of_none {α : Type} (p : α → Bool) :
    ∀ {l1 l2 : List α}, l1.find? p = none → (l1 ++ l2).find? p = l2.find? p := by
  intro l1
  induction l1 with
  | nil => intro l2 _; rfl
  | cons a l ih =>
      intro l2 h
      cases hpa : p a with
      | true => rw [List.find?] at h; rw [hpa] at h; cases h
      | false =>
          rw [List.find?] at h
          rw [hpa] at h
          rw [List.cons_append, List.find?, hpa]
          exact ih h

/-- Helper: storing the loaded data under the path makes the path found, with
exactly the stored (unconverted) data. -/
theorem fh_lookup_store {self : FHInstance} {filePath : String} {loaded : Json}
    (h : lookupAttr self filePath = none) :
    lookupAttr ⟨self.attrs ++ [(filePath, loaded)]⟩ filePath = some loaded := by
  rw [lookupAttr] at h ⊢
  have hfind : self.attrs.find? (fun p => p.1 == filePath) = none := by
    cases hf : self.attrs.find? (fun p => p.1 == filePath) with
    | none => rfl
    | some q => rw [hf] at h; cases h
  rw [show (⟨self.attrs ++ [(filePath, loaded)]⟩ : FHInstance).attrs
      = self.attrs ++ [(filePath, loaded)] from rfl]
  rw [find?_append_of_none _ hfind]
  simp [List.find?]

/-- C10: `FileHandler` is a singleton — once constructed, every further
construction returns the same instance and leaves the class state unchanged —
and `getFileData` reads a path from disk at most once: a cache hit returns
the stored data (conversion applied to the returned value only) without
opening the file; a miss opens the file once and stores the raw, unconverted
data; and any call that did open the file leaves a state in which the next
call for that path is a no-read cache hit. -/
theorem C10_singleton_and_read_once :
    (∀ cls : ClsState,
        (FileHandler_new (FileHandler_new cls).2).1 = (FileHandler_new cls).1
        ∧ (FileHandler_new (FileHandler_new cls).2).2 = (FileHandler_new cls).2)
    ∧ (∀ (disk : String → Option Json) (self : FHInstance) (filePath : String)
          (convertTypeFunc : Option (Json → Json)) (expectedType : Option PyType) (d : Json),
        lookupAttr self filePath = some d →
        getFileData disk self filePath convertTypeFunc expectedType =
          .ok (convertStep convertTypeFunc expectedType d, self, false))
    ∧ (∀ (disk : String → Option Json) (self : FHInstance) (filePath : String)
          (convertTypeFunc : Option (Json → Json)) (expectedType : Option PyType)
          (loaded : Json),
        lookupAttr self filePath = none → disk filePath = some loaded →
        getFileData disk self filePath convertTypeFunc expectedType =
          .ok (convertStep convertTypeFunc expectedType loaded,
               ⟨self.attrs ++ [(filePath, loaded)]⟩, true)
        ∧ lookupAttr ⟨self.attrs ++ [(filePath, loaded)]⟩ filePath = some loaded)
    ∧ (∀ (disk : String → Option Json) (self : FHInstance) (filePath : String)
          (cv cv2 : Option (Json → Json)) (et et2 : Option PyType) (v : Json)
          (s2 : FHInstance),
        getFileData disk self filePath cv et = .ok (v, s2, true) →
        ∃ loaded, lookupAttr s2 filePath = some loaded ∧
          getFileData disk s2 filePath cv2 et2 =
            .ok (convertStep cv2 et2 loaded, s2, false)) := by
  refine ⟨?_, ?_, ?_, ?_⟩
  · intro cls
    obtain ⟨n, i⟩ := cls
    cases i <;> simp [FileHandler_new]
  · intro disk self filePath cv et d h
    simp only [getFileData, h]
  · intro disk self filePath cv et loaded h1 h2
    refine ⟨?_, fh_lookup_store h1⟩
    simp only [getFileData, h1, h2]
  · intro disk self filePath cv cv2 et et2 v s2 h
    rw [getFileData] at h
    cases hlk : lookupAttr self filePath with
    | some d =>
        simp only [hlk] at h
        injection h with h1
        injection h1 with hv h2
        injection h2 with hs hb
        cases hb
    | none =>
        simp only [hlk] at h
        cases hdisk : disk filePath with
        | none =>
            rw [hdisk] at h
            cases h
        | some loaded =>
            rw [hdisk] at h
            injection h with h1
            injection h1 with hv h2
            injection h2 with hs hb
            subst hs
            have hst := @fh_lookup_store self filePath loaded hlk
            exact ⟨loaded, hst, by simp only [getFileData, hst]⟩

/-- A handler instance that already caches `a.json`. -/
def fhSelf : FHInstance := ⟨[("a.json", Json.intV 3)]⟩

/-- Witness for C10: a cache hit on the concrete instance returns the stored
value without opening the file, even though the disk map has no entry. -/
theorem C10_singleton_and_read_once_witness :
    getFileData (fun _ => none) fhSelf "a.json" none none =
      .ok (convertStep none none (Json.intV 3), fhSelf, false) :=
  C10_singleton_and_read_once.2.1 (fun _ => none) fhSelf "a.json" none none
    (Json.intV 3) rfl
